import Mathlib

/-!
Verification of the chat widget in src/frontend/chatbot-ui/src/Chat.jsx.

The component keeps three pieces of React state: the message list, the
current textarea input, and a loading (busy) flag. The async function
sendMessage validates the input, appends the user record, clears the input,
sets loading, issues one POST to a fixed endpoint, and on resolution appends
either the bot reply or a fixed fallback record, finally clearing loading.

The embedding makes the network outcome an explicit parameter
(FetchOutcome) and splits sendMessage at its single await point into
sendStart (everything before the request resolves) and sendResolve
(the try-block tail, the catch and the finally). JS undefined for a
message text is modelled as Option.none; JS exceptions inside the try
block are modelled by the Except-valued tryBody, whose errors the catch
in sendResolve converts into the fallback record.
-/

/-- Role field of a message record; the source only ever appends the
string literals for user and bot. -/
inductive Role where
  | user
  | bot
  deriving DecidableEq, Repr

/-- One message record. The text is Option String because on the success
path the code stores data.reply, which in JS can be undefined (none). -/
structure Msg where
  role : Role
  text : Option String
  deriving DecidableEq, Repr

/-- The React state of the Chat component: messages, input, loading. -/
structure ChatState where
  messages : List Msg
  input : String
  loading : Bool
  deriving DecidableEq, Repr

/-- Outcome of awaiting res.json(): either the body fails to parse as
JSON, or it parses to an object whose reply field is an optional string
(none models a body without a reply field, where data.reply is undefined). -/
inductive JsonBody where
  | parseError
  | parsed (reply : Option String)
  deriving DecidableEq, Repr

/-- Outcome of the fetch call: the promise rejects (network error), or a
response arrives carrying res.ok and the body behaviour. -/
inductive FetchOutcome where
  | netError
  | response (ok : Bool) (body : JsonBody)
  deriving DecidableEq, Repr

/-- The JS exceptions that can arise inside the try block of sendMessage:
fetch rejecting, the explicit throw on a non-ok status, and res.json()
failing to parse. -/
inductive JsError where
  | fetchFailed
  | networkError
  | jsonFailed
  deriving DecidableEq, Repr

/-- Minimal JSON values, enough for the request body built by
JSON.stringify on an object with string fields. -/
inductive Json where
  | str (s : String)
  | obj (fields : List (String × Json))

/-- One HTTP request as issued by fetch: URL, method, JSON body. -/
structure Request where
  url : String
  method : String
  body : Json

/-- The fixed endpoint, const API_URL in Chat.jsx. -/
def API_URL : String := "http://127.0.0.1:8000/chat"

/-- The fixed fallback text appended on any caught failure, exactly as the
string literal in the catch branch of Chat.jsx. -/
def fallbackText : String :=
  "⚠️ **System Error:** Unable to reach the backend. Is the server running?"

/-- The greeting text of the single initial bot message, exactly as the
string literal in the useState initializer of Chat.jsx. -/
def greetingText : String :=
  "Hello! I\x27m your Enterprise Data Assistant.How can I help you? 🌪️"

/-- The initial component state: one bot greeting, empty input, not loading. -/
def initState : ChatState :=
  { messages := [⟨Role.bot, some greetingText⟩], input := "", loading := false }

/-- JS String.prototype.trim as called on the input: drop whitespace
characters from both ends of the string. Written by structural recursion
over the character list so that it evaluates. -/
def jsTrim (s : String) : String :=
  String.mk (((s.data.dropWhile Char.isWhitespace).reverse.dropWhile
    Char.isWhitespace).reverse)

/-- First half of sendMessage, up to issuing the fetch: the guard
(trimmed-empty input or loading means return with no request), then
appending the user record with the untrimmed input, clearing the input,
setting loading, and building the request
POST API_URL with body from JSON.stringify of the message object. -/
def sendStart (st : ChatState) : ChatState × Option Request :=
  if jsTrim st.input = "" ∨ st.loading = true then (st, none)
  else
    ({ messages := st.messages ++ [⟨Role.user, some st.input⟩],
       input := "", loading := true },
     some ⟨API_URL, "POST", Json.obj [("message", Json.str st.input)]⟩)

/-- The try-block tail after the fetch resolves: a rejected fetch is an
exception; a non-ok response hits the explicit throw; res.json() can fail;
otherwise the bot record carrying data.reply is appended. -/
def tryBody (st1 : ChatState) (o : FetchOutcome) : Except JsError ChatState :=
  match o with
  | FetchOutcome.netError => Except.error JsError.fetchFailed
  | FetchOutcome.response ok body =>
    if !ok then Except.error JsError.networkError
    else
      match body with
      | JsonBody.parseError => Except.error JsError.jsonFailed
      | JsonBody.parsed reply =>
        Except.ok { st1 with messages := st1.messages ++ [⟨Role.bot, reply⟩] }

/-- Resolution of sendMessage: the try block, the catch (which appends the
fallback bot record on any exception) and the finally (which clears the
loading flag on every path). -/
def sendResolve (st1 : ChatState) (o : FetchOutcome) : ChatState :=
  let st2 : ChatState :=
    match tryBody st1 o with
    | Except.ok s => s
    | Except.error _ =>
      { st1 with messages := st1.messages ++ [⟨Role.bot, some fallbackText⟩] }
  { st2 with loading := false }

/-- Whether an Except value is the ok constructor. -/
def isOkB {e a : Type} : Except e a → Bool
  | Except.ok _ => true
  | Except.error _ => false

/-- The whole async sendMessage as an Except-valued computation: an error
value would model the returned promise rejecting. Every exception site sits
inside tryBody and sendResolve handles both of its constructors, so the
function body only ever builds ok results. -/
def sendMessageRun (st : ChatState) (o : FetchOutcome) :
    Except JsError (ChatState × Option Request) :=
  match sendStart st with
  | (_, none) => Except.ok (st, none)
  | (st1, some r) => Except.ok (sendResolve st1 o, some r)

/-- One complete call of sendMessage under network outcome o: the new state
and the request it issued, if any. -/
def sendMessage (st : ChatState) (o : FetchOutcome) : ChatState × Option Request :=
  match sendMessageRun st o with
  | Except.ok v => v
  | Except.error _ => (st, none)

/-- A session fragment: for each pair, the user types the text into the
textarea (the onChange handler replaces the input) and the send completes
under the given network outcome. -/
def runSends (st : ChatState) (sends : List (String × FetchOutcome)) : ChatState :=
  match sends with
  | [] => st
  | (t, o) :: rest => runSends (sendMessage { st with input := t } o).1 rest

/-- The state transitions the component performs: the textarea onChange
replacing the input, the first half of a send, and the resolution of a
send under some network outcome. -/
inductive ChatStep : ChatState → ChatState → Prop where
  | typeInput (st : ChatState) (s : String) : ChatStep st { st with input := s }
  | start (st : ChatState) : ChatStep st (sendStart st).1
  | resolve (st : ChatState) (o : FetchOutcome) : ChatStep st (sendResolve st o)

/-- Any message record has one of the two roles. -/
lemma role_cases (m : Msg) : m.role = Role.user ∨ m.role = Role.bot := by
  cases h : m.role
  · exact Or.inl rfl
  · exact Or.inr rfl

/-- When the guard passes, sendStart computes the appended user record, the
cleared input, the raised loading flag, and the request. -/
lemma sendStart_pass (st : ChatState) (ht : jsTrim st.input ≠ "")
    (hl : st.loading = false) :
    sendStart st =
      ({ messages := st.messages ++ [⟨Role.user, some st.input⟩],
         input := "", loading := true },
       some ⟨API_URL, "POST", Json.obj [("message", Json.str st.input)]⟩) := by
  unfold sendStart
  rw [if_neg]
  rintro (h | h)
  · exact ht h
  · rw [hl] at h
    exact Bool.false_ne_true h

/-- Whatever the outcome, sendResolve appends exactly one bot record and
clears the loading flag, leaving the rest of the state alone. -/
lemma sendResolve_messages (st1 : ChatState) (o : FetchOutcome) :
    ∃ b, sendResolve st1 o =
      ⟨st1.messages ++ [⟨Role.bot, b⟩], st1.input, false⟩ := by
  cases o with
  | netError => exact ⟨some fallbackText, rfl⟩
  | response ok body =>
    cases ok with
    | false => exact ⟨some fallbackText, rfl⟩
    | true =>
      cases body with
      | parseError => exact ⟨some fallbackText, rfl⟩
      | parsed reply => exact ⟨reply, rfl⟩

/-- When the guard passes, a full send is sendResolve applied to the state
sendStart built, paired with the request. -/
lemma sendMessage_pass (st : ChatState) (o : FetchOutcome)
    (ht : jsTrim st.input ≠ "") (hl : st.loading = false) :
    sendMessage st o =
      (sendResolve ⟨st.messages ++ [⟨Role.user, some st.input⟩], "", true⟩ o,
       some ⟨API_URL, "POST", Json.obj [("message", Json.str st.input)]⟩) := by
  unfold sendMessage sendMessageRun
  rw [sendStart_pass st ht hl]

/-- C1 as written is false on the code: at a concrete failing send, the
appended bot text is not the plain string the claim quotes, because the
source string carries a warning emoji and markdown bold markers. -/
theorem c1_counterexample :
    ¬ ((sendMessage ⟨[], "hi", false⟩ FetchOutcome.netError).1.messages.getLast? =
        some ⟨Role.bot,
          some "System Error: Unable to reach the backend. Is the server running?"⟩) := by
  decide

/-- C1 (amended): for every send attempt that fails (network exception
thrown by fetch, or a response with a non-success HTTP status), sendMessage
appends a bot record whose text equals exactly the fixed fallback string of
the source, namely fallbackText. -/
theorem c1_failure_appends_fallback (st : ChatState) (o : FetchOutcome)
    (ht : jsTrim st.input ≠ "") (hl : st.loading = false)
    (hfail : o = FetchOutcome.netError ∨
      ∃ body, o = FetchOutcome.response false body) :
    (sendMessage st o).1.messages =
      st.messages ++ [⟨Role.user, some st.input⟩, ⟨Role.bot, some fallbackText⟩] := by
  rw [sendMessage_pass st o ht hl]
  rcases hfail with h | ⟨body, h⟩
  · subst h
    simp [sendResolve, tryBody]
  · subst h
    cases body <;> simp [sendResolve, tryBody]

/-- Witness for c1_failure_appends_fallback at a concrete state and a
network error outcome. -/
theorem c1_failure_appends_fallback_witness :
    (sendMessage ⟨[], "hi", false⟩ FetchOutcome.netError).1.messages =
      [⟨Role.user, some "hi"⟩, ⟨Role.bot, some fallbackText⟩] :=
  c1_failure_appends_fallback ⟨[], "hi", false⟩ FetchOutcome.netError
    (by decide) rfl (Or.inl rfl)

/-- C2: for every input whose trimmed text is non-empty, invoked while the
busy flag is false, sendMessage appends exactly one user record carrying
that input immediately (already after sendStart), and exactly one bot
record after resolution, whatever the outcome: two records in total, user
before bot. -/
theorem c2_two_records (st : ChatState) (o : FetchOutcome)
    (ht : jsTrim st.input ≠ "") (hl : st.loading = false) :
    (sendStart st).1.messages = st.messages ++ [⟨Role.user, some st.input⟩] ∧
    ∃ b, (sendMessage st o).1.messages =
      st.messages ++ [⟨Role.user, some st.input⟩, ⟨Role.bot, b⟩] := by
  constructor
  · rw [sendStart_pass st ht hl]
  · obtain ⟨b, hb⟩ :=
      sendResolve_messages ⟨st.messages ++ [⟨Role.user, some st.input⟩], "", true⟩ o
    refine ⟨b, ?_⟩
    rw [sendMessage_pass st o ht hl]
    simp [hb]

/-- Witness for c2_two_records at a concrete state and outcome. -/
theorem c2_two_records_witness :
    (sendStart ⟨[], "hi", false⟩).1.messages = [⟨Role.user, some "hi"⟩] ∧
    ∃ b, (sendMessage ⟨[], "hi", false⟩ FetchOutcome.netError).1.messages =
      [⟨Role.user, some "hi"⟩, ⟨Role.bot, b⟩] :=
  c2_two_records ⟨[], "hi", false⟩ FetchOutcome.netError (by decide) rfl

/-- C3: when the guard fails, either because the trimmed input is empty or
because the busy flag is set, sendMessage is a no-op: the whole state is
returned unchanged (conversation and busy flag included) and no request is
issued. -/
theorem c3_noop (st : ChatState) (o : FetchOutcome)
    (h : jsTrim st.input = "" ∨ st.loading = true) :
    sendMessage st o = (st, none) := by
  unfold sendMessage sendMessageRun sendStart
  rw [if_pos h]

/-- Witness for c3_noop on a whitespace-only input. -/
theorem c3_noop_witness :
    sendMessage ⟨[], "  ", false⟩ FetchOutcome.netError = (⟨[], "  ", false⟩, none) :=
  c3_noop ⟨[], "  ", false⟩ FetchOutcome.netError (Or.inl (by decide))

/-- C4: round-trip of the reply. For every successful response whose JSON
body carries reply X, the bot record appended by sendMessage has text
exactly X, with no transformation applied. -/
theorem c4_roundtrip (st : ChatState) (x : String)
    (ht : jsTrim st.input ≠ "") (hl : st.loading = false) :
    (sendMessage st (FetchOutcome.response true (JsonBody.parsed (some x)))).1.messages =
      st.messages ++ [⟨Role.user, some st.input⟩, ⟨Role.bot, some x⟩] := by
  rw [sendMessage_pass st _ ht hl]
  simp [sendResolve, tryBody]

/-- Witness for c4_roundtrip at a concrete state and reply. -/
theorem c4_roundtrip_witness :
    (sendMessage ⟨[], "hi", false⟩
        (FetchOutcome.response true (JsonBody.parsed (some "X")))).1.messages =
      [⟨Role.user, some "hi"⟩, ⟨Role.bot, some "X"⟩] :=
  c4_roundtrip ⟨[], "hi", false⟩ "X" (by decide) rfl

/-- C5: the busy flag tracks the single outstanding request. A call that
issues a request starts from a non-loading state and leaves loading true;
resolution always clears the flag, on the success and on the failure path;
and a call made while loading issues no request and changes nothing, so no
two busy intervals overlap. -/
theorem c5_busy_flag (st st1 stb : ChatState) (r : Request) (o : FetchOutcome)
    (h : sendStart st = (st1, some r)) (hb : stb.loading = true) :
    st.loading = false ∧ st1.loading = true ∧
    (sendResolve st1 o).loading = false ∧ sendStart stb = (stb, none) := by
  have hl : st.loading = false := by
    cases h2 : st.loading with
    | false => rfl
    | true =>
      have hn : sendStart st = (st, none) := by
        unfold sendStart
        rw [if_pos (Or.inr h2)]
      rw [hn] at h
      simp at h
  have ht : jsTrim st.input ≠ "" := by
    intro hc
    have hn : sendStart st = (st, none) := by
      unfold sendStart
      rw [if_pos (Or.inl hc)]
    rw [hn] at h
    simp at h
  refine ⟨hl, ?_, ?_, ?_⟩
  · rw [sendStart_pass st ht hl] at h
    have h1 := congrArg Prod.fst h
    simp at h1
    rw [← h1]
  · obtain ⟨b, hbm⟩ := sendResolve_messages st1 o
    rw [hbm]
  · unfold sendStart
    rw [if_pos (Or.inr hb)]

/-- Witness for c5_busy_flag at a concrete passing send. -/
theorem c5_busy_flag_witness :
    (⟨[], "hi", false⟩ : ChatState).loading = false ∧
    (⟨[⟨Role.user, some "hi"⟩], "", true⟩ : ChatState).loading = true ∧
    (sendResolve ⟨[⟨Role.user, some "hi"⟩], "", true⟩ FetchOutcome.netError).loading
      = false ∧
    sendStart ⟨[], "x", true⟩ = (⟨[], "x", true⟩, none) :=
  c5_busy_flag ⟨[], "hi", false⟩ ⟨[⟨Role.user, some "hi"⟩], "", true⟩
    ⟨[], "x", true⟩ ⟨API_URL, "POST", Json.obj [("message", Json.str "hi")]⟩
    FetchOutcome.netError (sendStart_pass ⟨[], "hi", false⟩ (by decide) rfl) rfl

/-- One step of the transition system only ever appends at most one record
of one of the two roles at the end of the list. -/
lemma append_keeps (L t : List Msg) (hlen : t.length ≤ 1) :
    (L ++ t).take L.length = L ∧ (L ++ t).length ≤ L.length + 1 ∧
    ((L ++ t).drop L.length).all
      (fun m => m.role == Role.user || m.role == Role.bot) = true := by
  refine ⟨List.take_left L t, ?_, ?_⟩
  · simp [List.length_append]
    omega
  · rw [List.drop_left]
    rw [List.all_eq_true]
    intro m _
    cases h : m.role <;> simp [h]

/-- C6: the conversation is append-only. Every transition of the component
either leaves the message list unchanged or extends it at the end with one
record, and every record carries one of the two roles; in particular no
step deletes, edits or reorders the existing records. -/
theorem c6_append_only (st st2 : ChatState) (h : ChatStep st st2) :
    st2.messages.take st.messages.length = st.messages ∧
    st2.messages.length ≤ st.messages.length + 1 ∧
    (st2.messages.drop st.messages.length).all
      (fun m => m.role == Role.user || m.role == Role.bot) = true := by
  cases h with
  | typeInput s =>
    have h0 := append_keeps st.messages [] (by simp)
    rw [List.append_nil] at h0
    exact h0
  | start =>
    by_cases hc : jsTrim st.input = "" ∨ st.loading = true
    · have hn : sendStart st = (st, none) := by
        unfold sendStart
        rw [if_pos hc]
      rw [hn]
      have h0 := append_keeps st.messages [] (by simp)
      rw [List.append_nil] at h0
      exact h0
    · obtain ⟨ht, hlt⟩ := not_or.mp hc
      have hl : st.loading = false := by
        cases h2 : st.loading with
        | false => rfl
        | true => exact absurd h2 hlt
      rw [sendStart_pass st ht hl]
      exact append_keeps st.messages [⟨Role.user, some st.input⟩] (by simp)
  | resolve o =>
    obtain ⟨b, hb⟩ := sendResolve_messages st o
    rw [hb]
    exact append_keeps st.messages [⟨Role.bot, b⟩] (by simp)

/-- Witness for c6_append_only on a concrete resolution step. -/
theorem c6_append_only_witness :
    ((sendResolve ⟨[], "", true⟩ FetchOutcome.netError).messages.take 0 = [] ∧
     (sendResolve ⟨[], "", true⟩ FetchOutcome.netError).messages.length ≤ 0 + 1 ∧
     ((sendResolve ⟨[], "", true⟩ FetchOutcome.netError).messages.drop 0).all
       (fun m => m.role == Role.user || m.role == Role.bot) = true) :=
  c6_append_only ⟨[], "", true⟩ (sendResolve ⟨[], "", true⟩ FetchOutcome.netError)
    (ChatStep.resolve ⟨[], "", true⟩ FetchOutcome.netError)

/-- C7: every send that passes the guard issues exactly one request, a POST
to the fixed endpoint API_URL whose JSON body is the object carrying the
message field with the input text. -/
theorem c7_request (st : ChatState) (o : FetchOutcome)
    (ht : jsTrim st.input ≠ "") (hl : st.loading = false) :
    (sendMessage st o).2 =
      some ⟨API_URL, "POST", Json.obj [("message", Json.str st.input)]⟩ := by
  rw [sendMessage_pass st o ht hl]

/-- Witness for c7_request at a concrete state. -/
theorem c7_request_witness :
    (sendMessage ⟨[], "hi", false⟩ FetchOutcome.netError).2 =
      some ⟨API_URL, "POST", Json.obj [("message", Json.str "hi")]⟩ :=
  c7_request ⟨[], "hi", false⟩ FetchOutcome.netError (by decide) rfl

/-- C8: sendMessage never propagates a fault. The Except-valued run is ok
for every state and every outcome, and whenever the try block raises (any
of the three exception sites), the catch converts the fault locally into
the synthetic fallback bot record while the finally clears the flag. -/
theorem c8_no_throw (st st1 : ChatState) (o : FetchOutcome) :
    isOkB (sendMessageRun st o) = true ∧
    (isOkB (tryBody st1 o) = false →
      sendResolve st1 o =
        { st1 with messages := st1.messages ++ [⟨Role.bot, some fallbackText⟩],
                   loading := false }) := by
  constructor
  · unfold sendMessageRun
    rcases hs : sendStart st with ⟨a, b⟩
    cases b <;> rfl
  · intro hfail
    unfold sendResolve
    cases htb : tryBody st1 o with
    | ok s =>
      rw [htb] at hfail
      simp [isOkB] at hfail
    | error e => rfl

/-- Witness for c8_no_throw at a concrete state and a rejected fetch,
discharging the fault hypothesis of the conversion conjunct by rfl. -/
theorem c8_no_throw_witness :
    isOkB (sendMessageRun ⟨[], "hi", false⟩ FetchOutcome.netError) = true ∧
    sendResolve ⟨[], "", true⟩ FetchOutcome.netError =
      ⟨[⟨Role.bot, some fallbackText⟩], "", false⟩ :=
  ⟨(c8_no_throw ⟨[], "hi", false⟩ ⟨[], "", true⟩ FetchOutcome.netError).1,
   (c8_no_throw ⟨[], "hi", false⟩ ⟨[], "", true⟩ FetchOutcome.netError).2 rfl⟩

/-- A session fragment of completed sends with non-blank inputs grows the
conversation by exactly two records per send and ends not loading. -/
lemma runSends_length (sends : List (String × FetchOutcome)) :
    ∀ st : ChatState, st.loading = false →
      (∀ p ∈ sends, jsTrim (Prod.fst p) ≠ "") →
      (runSends st sends).messages.length =
        st.messages.length + 2 * sends.length ∧
      (runSends st sends).loading = false := by
  induction sends with
  | nil =>
    intro st hl _
    exact ⟨by simp [runSends], by simp [runSends, hl]⟩
  | cons p rest ih =>
    obtain ⟨t, o⟩ := p
    intro st hl h
    have ht : jsTrim t ≠ "" := h (t, o) (List.mem_cons_self _ _)
    have hstep := sendMessage_pass { st with input := t } o ht hl
    obtain ⟨b, hb⟩ :=
      sendResolve_messages ⟨st.messages ++ [⟨Role.user, some t⟩], "", true⟩ o
    have key : (sendMessage { st with input := t } o).1 =
        ⟨(st.messages ++ [⟨Role.user, some t⟩]) ++ [⟨Role.bot, b⟩], "", false⟩ := by
      rw [hstep, hb]
    simp only [runSends]
    rw [key]
    have ih2 := ih ⟨(st.messages ++ [⟨Role.user, some t⟩]) ++ [⟨Role.bot, b⟩],
        "", false⟩ rfl (fun q hq => h q (List.mem_cons_of_mem _ hq))
    refine ⟨?_, ih2.2⟩
    rw [ih2.1]
    simp [List.length_append]
    ring

/-- C9: at session start the conversation is not empty. It holds exactly
one bot record, the fixed greeting, and a session of n completed sends with
non-blank inputs therefore ends with 2n plus one records. -/
theorem c9_initial_greeting (sends : List (String × FetchOutcome))
    (h : ∀ p ∈ sends, jsTrim (Prod.fst p) ≠ "") :
    initState.messages = [⟨Role.bot, some greetingText⟩] ∧
    (runSends initState sends).messages.length = 2 * sends.length + 1 := by
  refine ⟨rfl, ?_⟩
  rw [(runSends_length sends initState rfl h).1]
  simp [initState]
  omega

/-- Witness for c9_initial_greeting on a one-send session. -/
theorem c9_initial_greeting_witness :
    initState.messages = [⟨Role.bot, some greetingText⟩] ∧
    (runSends initState [("hi", FetchOutcome.netError)]).messages.length = 3 :=
  c9_initial_greeting [("hi", FetchOutcome.netError)] (by decide)

/-- C10: a success-status response with an unparseable body is handled as a
delivery failure, appending the fixed fallback bot record, while a body
that parses but carries no reply field appends a bot record whose text is
the undefined value (none), not the fallback. -/
theorem c10_parse_handling (st : ChatState)
    (ht : jsTrim st.input ≠ "") (hl : st.loading = false) :
    (sendMessage st (FetchOutcome.response true JsonBody.parseError)).1.messages =
      st.messages ++
        [⟨Role.user, some st.input⟩, ⟨Role.bot, some fallbackText⟩] ∧
    (sendMessage st (FetchOutcome.response true (JsonBody.parsed none))).1.messages =
      st.messages ++ [⟨Role.user, some st.input⟩, ⟨Role.bot, none⟩] ∧
    (none : Option String) ≠ some fallbackText := by
  refine ⟨?_, ?_, by simp⟩
  · rw [sendMessage_pass st _ ht hl]
    simp [sendResolve, tryBody]
  · rw [sendMessage_pass st _ ht hl]
    simp [sendResolve, tryBody]

/-- Witness for c10_parse_handling at a concrete state. -/
theorem c10_parse_handling_witness :
    (sendMessage ⟨[], "hi", false⟩
        (FetchOutcome.response true JsonBody.parseError)).1.messages =
      [⟨Role.user, some "hi"⟩, ⟨Role.bot, some fallbackText⟩] ∧
    (sendMessage ⟨[], "hi", false⟩
        (FetchOutcome.response true (JsonBody.parsed none))).1.messages =
      [⟨Role.user, some "hi"⟩, ⟨Role.bot, none⟩] ∧
    (none : Option String) ≠ some fallbackText :=
  c10_parse_handling ⟨[], "hi", false⟩ (by decide) rfl
